import Mathlib

/-!
# Verification of `EnginePruneController` (crates/consensus/beacon/src/engine/prune.rs)

Shallow embedding of the engine prune controller: a two-variant state
machine (`PrunerState.idle` holding an optional pruner, `PrunerState.running`
holding the consumer end of a oneshot completion channel), driven by a
non-blocking `poll` operation that spawns the pruner task when idle and
checks the completion channel when running.

The pruner type and its error type are abstract type parameters `Pr` and
`Err`.  The task spawner (`Box<dyn TaskSpawner>`) is modelled by its
observable effect: the list of units of work submitted so far, each
recording the task name and the pruner handed to the spawned closure.
The tokio oneshot receiver is modelled by its four observable states.
-/

namespace EnginePrune

/-- Rust's `std::task::Poll`. -/
inductive Poll (α : Type) where
  | Ready (a : α)
  | Pending
  deriving DecidableEq, Repr

/-- Modelled from the spec: the consumer end of the Completion Channel
(`tokio::sync::oneshot::Receiver`), an external dependency whose source is
not in the repository.  Its observable states: `pending` (producer alive,
no value sent yet), `value` (producer sent a value, not yet consumed),
`closed` (producer dropped without ever sending, or the closed condition
was already observed — repeated checks keep reporting closure), and
`consumed` (a value was already yielded; the receiver future must not be
polled again in this state). -/
inductive RecvState (α : Type) where
  | pending
  | value (a : α)
  | closed
  | consumed
  deriving DecidableEq, Repr

/-- Result of one non-blocking check of the completion channel. -/
inductive RecvPoll (α : Type) where
  | pendingR
  | readyOk (a : α)
  | readyErr
  deriving DecidableEq, Repr

/-- Modelled from the spec: one non-blocking poll of the oneshot receiver.
`none` models a panic: polling the receiver future again after it already
yielded a value is a contract violation.  Polling an already-closed channel
is safe and keeps reporting closure. -/
def oneshotPoll {α : Type} : RecvState α → Option (RecvPoll α × RecvState α)
  | .pending => some (.pendingR, .pending)
  | .value a => some (.readyOk a, .consumed)
  | .closed => some (.readyErr, .closed)
  | .consumed => none

deriving instance DecidableEq for Except

/-- Outcome of one pruner run, `Result<(), PrunerError>`. -/
abbrev PrunerResult (Err : Type) := Except Err Unit

/-- The finished pruner together with its outcome, `PrunerWithResult<St>`. -/
abbrev PrunerWithResult (Pr Err : Type) := Pr × PrunerResult Err

/-- The event type emitted by the controller (`EnginePruneEvent`). -/
inductive EnginePruneEvent (Err : Type) where
  | Started
  | Finished (result : PrunerResult Err)
  | TaskDropped
  deriving DecidableEq, Repr

/-- The possible pruner states within the sync controller (`PrunerState`). -/
inductive PrunerState (Pr Err : Type) where
  | idle (pruner : Option Pr)
  | running (rx : RecvState (PrunerWithResult Pr Err))
  deriving DecidableEq, Repr

/-- Returns `true` if the state matches idle (`PrunerState::is_idle`). -/
def PrunerState.is_idle {Pr Err : Type} : PrunerState Pr Err → Bool
  | .idle _ => true
  | .running _ => false

/-- A unit of work submitted to the task spawner: the task name and the
pruner moved into the spawned closure. -/
structure SpawnedTask (Pr : Type) where
  name : String
  pruner : Pr
  deriving DecidableEq, Repr

/-- The controller `EnginePruneController`: the pruner state plus the task
spawner, the latter modelled by the list of units of work submitted to it
so far. -/
structure EnginePruneController (Pr Err : Type) where
  pruner_state : PrunerState Pr Err
  spawned : List (SpawnedTask Pr)
  deriving DecidableEq, Repr

namespace EnginePruneController

variable {Pr Err : Type}

/-- Create a new instance (`EnginePruneController::new`).  The spawner
argument is modelled by its (empty) submission log. -/
def new (pruner : Pr) : EnginePruneController Pr Err :=
  { pruner_state := .idle (some pruner), spawned := [] }

/-- Returns `true` if the pruner is idle (`is_pruner_idle`). -/
def is_pruner_idle (c : EnginePruneController Pr Err) : Bool :=
  c.pruner_state.is_idle

/-- Returns `true` if the pruner is active (`is_pruner_active`). -/
def is_pruner_active (c : EnginePruneController Pr Err) : Bool :=
  !c.is_pruner_idle

/-- Advances the pruner state (`poll_pruner`): check for the result in
the channel, or return pending if the pruner is idle.  A `none` result
models a panic propagating out of the receiver poll. -/
def poll_pruner (c : EnginePruneController Pr Err) :
    Option (Poll (EnginePruneEvent Err) × EnginePruneController Pr Err) :=
  match c.pruner_state with
  | .idle _ => some (.Pending, c)
  | .running rx =>
    match oneshotPoll rx with
    | none => none
    | some (.pendingR, rx') => some (.Pending, { c with pruner_state := .running rx' })
    | some (.readyOk (pruner, result), _) =>
        some (.Ready (.Finished result), { c with pruner_state := .idle (some pruner) })
    | some (.readyErr, rx') =>
        some (.Ready .TaskDropped, { c with pruner_state := .running rx' })

/-- Spawn the pruner if it is idle (`try_spawn_pruner`).  Taking the pruner out of the idle slot, submitting the unit of work
(which runs the pruner and posts `(pruner, result)` on a fresh oneshot
channel), and storing the fresh receiver happen within the one call. -/
def try_spawn_pruner (c : EnginePruneController Pr Err) :
    Option (EnginePruneEvent Err) × EnginePruneController Pr Err :=
  match c.pruner_state with
  | .idle none => (none, c)
  | .idle (some pruner) =>
      (some .Started,
       { pruner_state := .running .pending,
         spawned := c.spawned ++ [{ name := "pruner task", pruner := pruner }] })
  | .running _ => (none, c)

/-- The possible outcomes of the `poll` entry point: a panic, divergence of
the internal re-check loop (the fuel ran out before the loop exited), or a
normal return. -/
inductive PollOutcome (Pr Err : Type) where
  | panicked
  | diverged
  | done (r : Poll (EnginePruneEvent Err)) (c : EnginePruneController Pr Err)
  deriving DecidableEq, Repr

/-- The `loop` in `EnginePruneController::poll`, with explicit fuel: poll
the pruner; a ready event returns; otherwise return pending unless the
state is idle, in which case re-check. -/
def pollLoop (fuel : Nat) (c : EnginePruneController Pr Err) : PollOutcome Pr Err :=
  match fuel with
  | 0 => .diverged
  | fuel + 1 =>
    match c.poll_pruner with
    | none => .panicked
    | some (.Ready ev, c') => .done (.Ready ev) c'
    | some (.Pending, c') =>
      if c'.pruner_state.is_idle then pollLoop fuel c'
      else .done .Pending c'

/-- Advances the prune process (`EnginePruneController::poll`).  First try
to spawn a pruner; otherwise drive the completion-check loop. -/
def poll (fuel : Nat) (c : EnginePruneController Pr Err) : PollOutcome Pr Err :=
  match c.try_spawn_pruner with
  | (some ev, c') => .done (.Ready ev) c'
  | (none, c') => pollLoop fuel c'

/-- Whether a `poll` outcome is a normal return reporting pending
("no event this tick"). -/
def PollOutcome.isPending : PollOutcome Pr Err → Bool
  | .done .Pending _ => true
  | _ => false

end EnginePruneController

/-- The Run State is in its idle variant. -/
def isIdleVariant {Pr Err : Type} (s : PrunerState Pr Err) : Prop :=
  ∃ p, s = .idle p

/-- The Run State is in its running variant (a completion handle is held,
i.e. a background run is outstanding). -/
def isRunningVariant {Pr Err : Type} (s : PrunerState Pr Err) : Prop :=
  ∃ rx, s = .running rx

/-- Environment steps on a controller: one `poll` call by the foreground
loop (with any fuel), or an action of the spawned background task on the
pending completion channel — delivering the finished pruner with its
outcome, or dropping the producer end without sending (abnormal
termination). -/
inductive Step {Pr Err : Type} :
    EnginePruneController Pr Err → EnginePruneController Pr Err → Prop where
  | poll (fuel : Nat) (c c' : EnginePruneController Pr Err)
      (r : Poll (EnginePruneEvent Err)) :
      c.poll fuel = .done r c' → Step c c'
  | deliver (c : EnginePruneController Pr Err) (v : PrunerWithResult Pr Err) :
      c.pruner_state = .running .pending →
      Step c { c with pruner_state := .running (.value v) }
  | dropTx (c : EnginePruneController Pr Err) :
      c.pruner_state = .running .pending →
      Step c { c with pruner_state := .running .closed }

/-- States reachable from construction by any sequence of public
operations and background-task actions. -/
inductive Reachable {Pr Err : Type} : EnginePruneController Pr Err → Prop where
  | init (pruner : Pr) : Reachable (EnginePruneController.new pruner)
  | step {c c' : EnginePruneController Pr Err} :
      Reachable c → Step c c' → Reachable c'

/-- The state invariant maintained by the controller: the idle slot always
holds a pruner between calls, and the receiver of a running state has not
already yielded a value (so polling it cannot panic). -/
def GoodState {Pr Err : Type} : PrunerState Pr Err → Prop
  | .idle pruner => pruner.isSome
  | .running .consumed => False
  | .running _ => True

end EnginePrune

namespace EnginePrune

open EnginePruneController

section Lemmas

variable {Pr Err : Type}

/-- Evaluation of `poll` on an idle controller holding a pruner: the spawn
succeeds immediately, before the completion-check loop, for any fuel. -/
theorem poll_eval_idle_some (fuel : Nat) (p : Pr) (sp : List (SpawnedTask Pr)) :
    poll fuel (⟨.idle (some p), sp⟩ : EnginePruneController Pr Err)
      = .done (.Ready .Started) ⟨.running .pending, sp ++ [⟨"pruner task", p⟩]⟩ := rfl

/-- Evaluation of `poll` on a running controller whose channel is still
pending: one loop iteration, then pending with the state unchanged. -/
theorem poll_eval_running_pending (fuel : Nat) (sp : List (SpawnedTask Pr)) :
    poll (fuel + 1) (⟨.running .pending, sp⟩ : EnginePruneController Pr Err)
      = .done .Pending ⟨.running .pending, sp⟩ := rfl

/-- Evaluation of `poll` on a running controller whose channel closed
without a value: `TaskDropped`, state unchanged (still running). -/
theorem poll_eval_running_closed (fuel : Nat) (sp : List (SpawnedTask Pr)) :
    poll (fuel + 1) (⟨.running .closed, sp⟩ : EnginePruneController Pr Err)
      = .done (.Ready .TaskDropped) ⟨.running .closed, sp⟩ := rfl

/-- Evaluation of `poll` on a running controller whose channel delivered
the finished pruner with its outcome: `Finished`, back to idle. -/
theorem poll_eval_running_value (fuel : Nat) (p : Pr) (res : PrunerResult Err)
    (sp : List (SpawnedTask Pr)) :
    poll (fuel + 1) (⟨.running (.value (p, res)), sp⟩ : EnginePruneController Pr Err)
      = .done (.Ready (.Finished res)) ⟨.idle (some p), sp⟩ := rfl

/-- Evaluation of `poll` on a running controller whose receiver already
yielded its value: the receiver poll panics (a state the controller never
reaches, since yielding a value transitions to idle at once). -/
theorem poll_eval_running_consumed (fuel : Nat) (sp : List (SpawnedTask Pr)) :
    poll (fuel + 1) (⟨.running .consumed, sp⟩ : EnginePruneController Pr Err)
      = .panicked := rfl

/-- With zero fuel, `poll` on a running controller reports divergence
before performing the single loop iteration. -/
theorem poll_eval_running_zero (rx : RecvState (PrunerWithResult Pr Err))
    (sp : List (SpawnedTask Pr)) :
    poll 0 (⟨.running rx, sp⟩ : EnginePruneController Pr Err) = .diverged := rfl

/-- Evaluation of `try_spawn_pruner` on a running controller: a no-op
returning nothing. -/
theorem tss_eval_running (rx : RecvState (PrunerWithResult Pr Err))
    (sp : List (SpawnedTask Pr)) :
    try_spawn_pruner (⟨.running rx, sp⟩ : EnginePruneController Pr Err)
      = (none, ⟨.running rx, sp⟩) := rfl

/-- `poll_pruner` never submits work to the task spawner: the submission
log of the returned controller equals the caller's. -/
theorem poll_pruner_spawned (c : EnginePruneController Pr Err)
    (o : Poll (EnginePruneEvent Err) × EnginePruneController Pr Err)
    (h : c.poll_pruner = some o) : o.2.spawned = c.spawned := by
  obtain ⟨s, sp⟩ := c
  cases s with
  | idle p =>
    simp only [poll_pruner] at h
    cases h
    rfl
  | running rx =>
    cases rx <;> simp only [poll_pruner, oneshotPoll] at h <;> cases h <;> rfl

/-- One step preserves the state invariant. -/
theorem step_good {c c' : EnginePruneController Pr Err}
    (h : GoodState c.pruner_state) (hs : Step c c') : GoodState c'.pruner_state := by
  cases hs with
  | poll fuel c c' r hp =>
    obtain ⟨s, sp⟩ := c
    cases s with
    | idle p =>
      cases p with
      | none => exact absurd h (by simp [GoodState])
      | some q =>
        rw [poll_eval_idle_some] at hp
        cases hp
        trivial
    | running rx =>
      cases fuel with
      | zero => rw [poll_eval_running_zero] at hp; cases hp
      | succ fuel =>
        cases rx with
        | pending => rw [poll_eval_running_pending] at hp; cases hp; trivial
        | value v =>
          obtain ⟨p, res⟩ := v
          rw [poll_eval_running_value] at hp
          cases hp
          simp [GoodState]
        | closed => rw [poll_eval_running_closed] at hp; cases hp; trivial
        | consumed => exact absurd h (by simp [GoodState])
  | deliver c v hpend => trivial
  | dropTx c hpend => trivial

/-- Every reachable controller satisfies the state invariant: the idle
slot is never empty between calls and the receiver was never left in the
already-yielded state. -/
theorem reachable_good {c : EnginePruneController Pr Err}
    (h : Reachable c) : GoodState c.pruner_state := by
  induction h with
  | init pruner => simp [EnginePruneController.new, GoodState]
  | step _ hs ih => exact step_good ih hs

/-- From a stuck controller (running, channel closed) every step is a
self-loop: polls keep returning `TaskDropped` without changing anything,
and the background task can no longer act on the closed channel. -/
theorem step_stuck {c c' : EnginePruneController Pr Err}
    (h : c.pruner_state = .running .closed) (hs : Step c c') : c' = c := by
  cases hs with
  | poll fuel c c' r hp =>
    obtain ⟨s, sp⟩ := c
    simp only at h
    subst h
    cases fuel with
    | zero => rw [poll_eval_running_zero] at hp; cases hp
    | succ fuel => rw [poll_eval_running_closed] at hp; cases hp; rfl
  | deliver c v hpend => rw [h] at hpend; cases hpend
  | dropTx c hpend => rw [h] at hpend; cases hpend

/-- From a stuck controller, any finite sequence of steps ends at the same
controller. -/
theorem steps_stuck {c c' : EnginePruneController Pr Err}
    (h : c.pruner_state = .running .closed)
    (hs : Relation.ReflTransGen Step c c') : c' = c := by
  induction hs with
  | refl => rfl
  | tail hab hbc ih => rw [ih] at hbc; exact step_stuck h hbc

end Lemmas

/-- C8: a freshly constructed controller is idle, holding the given
runner: `is_pruner_idle` is `true` and `is_pruner_active` is `false`. -/
theorem c8_new_is_idle (Pr Err : Type) (pruner : Pr) :
    (new pruner : EnginePruneController Pr Err).pruner_state
        = .idle (some pruner) ∧
    (new pruner : EnginePruneController Pr Err).is_pruner_idle = true ∧
    (new pruner : EnginePruneController Pr Err).is_pruner_active = false := by
  refine ⟨rfl, rfl, rfl⟩

/-- C9: `is_pruner_idle` and `is_pruner_active` are pure functions of the
controller state (they are modelled as functions, mutating nothing), and
for every controller `is_pruner_active` is the boolean negation of
`is_pruner_idle`. -/
theorem c9_active_negates_idle (Pr Err : Type) (c : EnginePruneController Pr Err) :
    c.is_pruner_active = !c.is_pruner_idle := by
  rfl

/-- C1: at most one background run is in flight.  Whenever the state is
Running, `try_spawn_pruner` is a no-op returning `none`, submitting no
work and changing no state; consequently any `poll` call from such a state
never yields a second `Started` and never extends the task spawner's
submission log. -/
theorem c1_at_most_one_run (Pr Err : Type) (c c' : EnginePruneController Pr Err)
    (r : Poll (EnginePruneEvent Err)) (fuel : Nat)
    (hrun : c.pruner_state.is_idle = false)
    (hpoll : c.poll fuel = .done r c') :
    c.try_spawn_pruner = (none, c) ∧ r ≠ .Ready .Started ∧ c'.spawned = c.spawned := by
  obtain ⟨s, sp⟩ := c
  cases s with
  | idle p => exact absurd hrun (by simp [PrunerState.is_idle])
  | running rx =>
    have hkey : r ≠ .Ready .Started ∧ c'.spawned = sp := by
      cases fuel with
      | zero => rw [poll_eval_running_zero] at hpoll; cases hpoll
      | succ fuel =>
        cases rx with
        | pending =>
          rw [poll_eval_running_pending] at hpoll
          cases hpoll
          exact ⟨fun h => (nomatch h), rfl⟩
        | value v =>
          obtain ⟨p, res⟩ := v
          rw [poll_eval_running_value] at hpoll
          cases hpoll
          exact ⟨fun h => (nomatch h), rfl⟩
        | closed =>
          rw [poll_eval_running_closed] at hpoll
          cases hpoll
          exact ⟨fun h => (nomatch h), rfl⟩
        | consumed => rw [poll_eval_running_consumed] at hpoll; cases hpoll
    exact ⟨tss_eval_running rx sp, hkey.1, hkey.2⟩

/-- Witness for C1 at a concrete running controller. -/
theorem c1_witness :
    ((⟨.running .pending, []⟩ : EnginePruneController Nat Unit).pruner_state.is_idle
        = false
      ∧ (⟨.running .pending, []⟩ : EnginePruneController Nat Unit).poll 1
          = .done .Pending ⟨.running .pending, []⟩) ∧
    ((⟨.running .pending, []⟩ : EnginePruneController Nat Unit).try_spawn_pruner
        = (none, ⟨.running .pending, []⟩)
      ∧ (.Pending : Poll (EnginePruneEvent Unit)) ≠ .Ready .Started
      ∧ (⟨.running .pending, []⟩ : EnginePruneController Nat Unit).spawned
          = (⟨.running .pending, []⟩ : EnginePruneController Nat Unit).spawned) :=
  ⟨⟨rfl, rfl⟩, c1_at_most_one_run Nat Unit _ _ .Pending 1 rfl rfl⟩

/-- C2: when the producer side closed without delivering while Running,
the next `poll` reports `TaskDropped` and leaves the state Running; the
controller never transitions back to idle, `is_pruner_active` stays true,
and no new run is ever started along any sequence of further steps. -/
theorem c2_task_dropped_stuck (Pr Err : Type) (c c' : EnginePruneController Pr Err)
    (fuel : Nat) (h : c.pruner_state = .running .closed)
    (hs : Relation.ReflTransGen Step c c') :
    c.poll (fuel + 1) = .done (.Ready .TaskDropped) c ∧
    c.is_pruner_active = true ∧
    c'.pruner_state = .running .closed ∧
    c'.spawned = c.spawned := by
  obtain ⟨s, sp⟩ := c
  simp only at h
  subst h
  have hcc : c' = ⟨.running .closed, sp⟩ := steps_stuck rfl hs
  subst hcc
  exact ⟨poll_eval_running_closed fuel sp, rfl, rfl, rfl⟩

/-- Witness for C2 at a concrete stuck controller, with the empty step
sequence. -/
theorem c2_witness :
    ((⟨.running .closed, []⟩ : EnginePruneController Nat Unit).pruner_state
        = .running .closed
      ∧ Relation.ReflTransGen Step
          (⟨.running .closed, []⟩ : EnginePruneController Nat Unit)
          ⟨.running .closed, []⟩) ∧
    ((⟨.running .closed, []⟩ : EnginePruneController Nat Unit).poll 1
        = .done (.Ready .TaskDropped) ⟨.running .closed, []⟩
      ∧ (⟨.running .closed, []⟩ : EnginePruneController Nat Unit).is_pruner_active
          = true
      ∧ (⟨.running .closed, []⟩ : EnginePruneController Nat Unit).pruner_state
          = .running .closed
      ∧ (⟨.running .closed, []⟩ : EnginePruneController Nat Unit).spawned
          = (⟨.running .closed, []⟩ : EnginePruneController Nat Unit).spawned) :=
  ⟨⟨rfl, .refl⟩, c2_task_dropped_stuck Nat Unit _ _ 0 rfl .refl⟩

/-- C3: polling after `TaskDropped` is safe.  From a stuck controller
(running, channel closed) every further `poll` never panics and, given at
least one unit of fuel, again reports `TaskDropped` with the state
unchanged (an idempotent stuck signal). -/
theorem c3_poll_after_dropped_safe (Pr Err : Type)
    (c : EnginePruneController Pr Err) (fuel : Nat)
    (h : c.pruner_state = .running .closed) :
    c.poll fuel ≠ .panicked ∧
    c.poll (fuel + 1) = .done (.Ready .TaskDropped) c := by
  obtain ⟨s, sp⟩ := c
  simp only at h
  subst h
  refine ⟨?_, poll_eval_running_closed fuel sp⟩
  cases fuel with
  | zero => rw [poll_eval_running_zero]; exact fun h => nomatch h
  | succ fuel => rw [poll_eval_running_closed]; exact fun h => nomatch h

/-- Witness for C3 at a concrete stuck controller. -/
theorem c3_witness :
    ((⟨.running .closed, []⟩ : EnginePruneController Nat Unit).pruner_state
        = .running .closed) ∧
    ((⟨.running .closed, []⟩ : EnginePruneController Nat Unit).poll 1 ≠ .panicked
      ∧ (⟨.running .closed, []⟩ : EnginePruneController Nat Unit).poll 2
          = .done (.Ready .TaskDropped) ⟨.running .closed, []⟩) :=
  ⟨rfl, c3_poll_after_dropped_safe Nat Unit _ 1 rfl⟩

/-- C4: a delivered `(runner, outcome)` value while Running makes `poll`
report `Finished` carrying exactly that outcome and transition to Idle
holding that runner — for every outcome, success or failure alike — and
from the resulting idle state a further `poll` starts a fresh run with the
returned runner. -/
theorem c4_finished_returns_to_idle (Pr Err : Type)
    (c : EnginePruneController Pr Err) (p : Pr) (res : PrunerResult Err)
    (fuel fuelNext : Nat)
    (h : c.pruner_state = .running (.value (p, res))) :
    c.poll (fuel + 1)
      = .done (.Ready (.Finished res)) ⟨.idle (some p), c.spawned⟩ ∧
    poll fuelNext (⟨.idle (some p), c.spawned⟩ : EnginePruneController Pr Err)
      = .done (.Ready .Started)
          ⟨.running .pending, c.spawned ++ [⟨"pruner task", p⟩]⟩ := by
  obtain ⟨s, sp⟩ := c
  simp only at h
  subst h
  exact ⟨poll_eval_running_value fuel p res sp, poll_eval_idle_some fuelNext p sp⟩

/-- Witness for C4 at a concrete delivered failure outcome. -/
theorem c4_witness :
    ((⟨.running (.value (5, Except.error ())), []⟩
        : EnginePruneController Nat Unit).pruner_state
      = .running (.value (5, Except.error ()))) ∧
    ((⟨.running (.value (5, Except.error ())), []⟩
        : EnginePruneController Nat Unit).poll 1
      = .done (.Ready (.Finished (Except.error ()))) ⟨.idle (some 5), []⟩
      ∧ poll 0 (⟨.idle (some 5), []⟩ : EnginePruneController Nat Unit)
          = .done (.Ready .Started) ⟨.running .pending, [⟨"pruner task", 5⟩]⟩) :=
  ⟨rfl, c4_finished_returns_to_idle Nat Unit _ 5 (Except.error ()) 0 0 rfl⟩

/-- C5: from Idle with a runner present, `poll` takes the runner, submits
to the task spawner one unit of work carrying it (over a fresh, still
pending completion channel whose consumer end is stored in Running), and
returns exactly one `Started` event; immediately afterwards
`is_pruner_active` is true. -/
theorem c5_idle_starts_run (Pr Err : Type) (c : EnginePruneController Pr Err)
    (p : Pr) (fuel : Nat) (h : c.pruner_state = .idle (some p)) :
    c.poll fuel
      = .done (.Ready .Started)
          ⟨.running .pending, c.spawned ++ [⟨"pruner task", p⟩]⟩ ∧
    (⟨.running .pending, c.spawned ++ [⟨"pruner task", p⟩]⟩
        : EnginePruneController Pr Err).is_pruner_active = true := by
  obtain ⟨s, sp⟩ := c
  simp only at h
  subst h
  exact ⟨poll_eval_idle_some fuel p sp, rfl⟩

/-- Witness for C5 on a freshly constructed controller. -/
theorem c5_witness :
    ((new 3 : EnginePruneController Nat Unit).pruner_state = .idle (some 3)) ∧
    ((new 3 : EnginePruneController Nat Unit).poll 0
        = .done (.Ready .Started) ⟨.running .pending, [⟨"pruner task", 3⟩]⟩
      ∧ (⟨.running .pending, [⟨"pruner task", 3⟩]⟩
          : EnginePruneController Nat Unit).is_pruner_active = true) :=
  ⟨rfl, c5_idle_starts_run Nat Unit _ 3 0 rfl⟩

/-- C6: on every reachable controller, `poll` terminates and never blocks:
its result does not depend on the fuel bound (the internal re-check loop
exits within its first iteration), it never diverges and never panics, and
whenever it reports pending it leaves the state unchanged. -/
theorem c6_poll_terminates (Pr Err : Type) (c : EnginePruneController Pr Err)
    (fuel : Nat) (h : Reachable c) :
    c.poll (fuel + 1) = c.poll 1 ∧
    c.poll (fuel + 1) ≠ .diverged ∧
    c.poll (fuel + 1) ≠ .panicked ∧
    ((c.poll (fuel + 1)).isPending = true → c.poll (fuel + 1) = .done .Pending c) := by
  have hg := reachable_good h
  obtain ⟨s, sp⟩ := c
  cases s with
  | idle p =>
    cases p with
    | none => exact absurd hg (by simp [GoodState])
    | some q =>
      rw [poll_eval_idle_some]
      exact ⟨rfl, fun h => (nomatch h), fun h => (nomatch h), fun h => (nomatch h)⟩
  | running rx =>
    cases rx with
    | pending =>
      rw [poll_eval_running_pending]
      exact ⟨rfl, fun h => (nomatch h), fun h => (nomatch h), fun _ => rfl⟩
    | value v =>
      obtain ⟨p, res⟩ := v
      rw [poll_eval_running_value]
      exact ⟨rfl, fun h => (nomatch h), fun h => (nomatch h), fun h => (nomatch h)⟩
    | closed =>
      rw [poll_eval_running_closed]
      exact ⟨rfl, fun h => (nomatch h), fun h => (nomatch h), fun h => (nomatch h)⟩
    | consumed => exact absurd hg (by simp [GoodState])

/-- Witness for C6 on a freshly constructed controller. -/
theorem c6_witness :
    Reachable (new 0 : EnginePruneController Nat Unit) ∧
    ((new 0 : EnginePruneController Nat Unit).poll 1
        = (new 0 : EnginePruneController Nat Unit).poll 1
      ∧ (new 0 : EnginePruneController Nat Unit).poll 1 ≠ .diverged
      ∧ (new 0 : EnginePruneController Nat Unit).poll 1 ≠ .panicked
      ∧ (((new 0 : EnginePruneController Nat Unit).poll 1).isPending = true
          → (new 0 : EnginePruneController Nat Unit).poll 1
              = .done .Pending (new 0))) :=
  ⟨.init 0, c6_poll_terminates Nat Unit (new 0) 0 (.init 0)⟩

/-- C7: on every reachable controller exactly one Run State variant is
active, the idle variant always holds a present runner, and
`is_pruner_idle` is consistent with whether a background run is
outstanding (a completion handle is held): it is true iff no run is in
flight. -/
theorem c7_state_consistency (Pr Err : Type) (c : EnginePruneController Pr Err)
    (h : Reachable c) :
    (isIdleVariant c.pruner_state ∨ isRunningVariant c.pruner_state) ∧
    ¬(isIdleVariant c.pruner_state ∧ isRunningVariant c.pruner_state) ∧
    (isIdleVariant c.pruner_state → ∃ p, c.pruner_state = .idle (some p)) ∧
    (c.is_pruner_idle = true ↔ ¬isRunningVariant c.pruner_state) := by
  have hg := reachable_good h
  obtain ⟨s, sp⟩ := c
  cases s with
  | idle p =>
    cases p with
    | none => exact absurd hg (by simp [GoodState])
    | some q =>
      refine ⟨.inl ⟨some q, rfl⟩, ?_, fun _ => ⟨q, rfl⟩, ?_⟩
      · rintro ⟨-, ⟨rx, hrx⟩⟩
        cases hrx
      · constructor
        · rintro - ⟨rx, hrx⟩
          cases hrx
        · intro
          rfl
  | running rx =>
    refine ⟨.inr ⟨rx, rfl⟩, ?_, ?_, ?_⟩
    · rintro ⟨⟨p, hp⟩, -⟩
      cases hp
    · rintro ⟨p, hp⟩
      cases hp
    · exact ⟨fun hid => (nomatch hid), fun hn => absurd ⟨rx, rfl⟩ hn⟩

/-- Witness for C7 on a freshly constructed controller. -/
theorem c7_witness :
    Reachable (new 0 : EnginePruneController Nat Unit) ∧
    ((isIdleVariant (new 0 : EnginePruneController Nat Unit).pruner_state
        ∨ isRunningVariant (new 0 : EnginePruneController Nat Unit).pruner_state)
      ∧ ¬(isIdleVariant (new 0 : EnginePruneController Nat Unit).pruner_state
          ∧ isRunningVariant (new 0 : EnginePruneController Nat Unit).pruner_state)
      ∧ (isIdleVariant (new 0 : EnginePruneController Nat Unit).pruner_state
          → ∃ p, (new 0 : EnginePruneController Nat Unit).pruner_state
              = .idle (some p))
      ∧ ((new 0 : EnginePruneController Nat Unit).is_pruner_idle = true
          ↔ ¬isRunningVariant (new 0 : EnginePruneController Nat Unit).pruner_state)) :=
  ⟨.init 0, c7_state_consistency Nat Unit (new 0) (.init 0)⟩

/-- C10: construction has no side effect on the task spawner — `new`
submits nothing (empty submission log) and creates no completion channel
(the state is idle, holding the runner).  Work is submitted only inside
`try_spawn_pruner` and only from Idle with a runner present: from any
other state `try_spawn_pruner` is a no-op, and `poll_pruner` never changes
the submission log. -/
theorem c10_construction_no_spawn (Pr Err : Type) (p : Pr)
    (c : EnginePruneController Pr Err)
    (o : Poll (EnginePruneEvent Err) × EnginePruneController Pr Err)
    (hns : ∀ q : Pr, c.pruner_state ≠ .idle (some q))
    (hpp : c.poll_pruner = some o) :
    (new p : EnginePruneController Pr Err).spawned = [] ∧
    (new p : EnginePruneController Pr Err).pruner_state = .idle (some p) ∧
    c.try_spawn_pruner = (none, c) ∧
    o.2.spawned = c.spawned := by
  refine ⟨rfl, rfl, ?_, poll_pruner_spawned c o hpp⟩
  obtain ⟨s, sp⟩ := c
  cases s with
  | idle qo =>
    cases qo with
    | none => rfl
    | some q => exact absurd rfl (hns q)
  | running rx => exact tss_eval_running rx sp

/-- Witness for C10 at a concrete running controller. -/
theorem c10_witness :
    (new 0 : EnginePruneController Nat Unit).spawned = [] ∧
    (new 0 : EnginePruneController Nat Unit).pruner_state = .idle (some 0) ∧
    (⟨.running .pending, []⟩ : EnginePruneController Nat Unit).try_spawn_pruner
      = (none, ⟨.running .pending, []⟩) ∧
    ((.Pending, ⟨.running .pending, []⟩)
        : Poll (EnginePruneEvent Unit) × EnginePruneController Nat Unit).2.spawned
      = (⟨.running .pending, []⟩ : EnginePruneController Nat Unit).spawned :=
  c10_construction_no_spawn Nat Unit 0 ⟨.running .pending, []⟩
    (.Pending, ⟨.running .pending, []⟩) (fun _ h => (nomatch h)) rfl

end EnginePrune
